import Mathlib

/-!
Shallow embedding of the HospitalWasteManagement emission-calculation engine
(src/config.py, src/waste_stream.py, src/processes/incineration.py,
src/processes/pyrolysis.py).

Numeric values are embedded as exact rationals (Python floats in the source);
a mass is the magnitude of the pint quantity in kilograms, which is what the
source obtains through waste.mass.to("kg").  A composition is the nested dict
category -> subcategory -> fraction; we model it as a function to Option so
that a missing category or subcategory key is `none` and the source's
defaulting lookup `composition.get(cat, \x7b\x7d).get(sub, 0)` is `Option.getD 0`.
An emission result is the dict pollutant key -> magnitude in kilograms,
modelled as an association list in the construction order of the source.
-/

/-- A waste composition: category name -> subcategory name -> fraction,
`none` when the category or subcategory key is absent. -/
def WasteComposition : Type := String → String → Option ℚ

/-- The source's defaulting lookup `composition.get(cat, \x7b\x7d).get(sub, 0)`. -/
def fracOf (comp : WasteComposition) (cat sub : String) : ℚ :=
  (comp cat sub).getD 0

/-- `WasteStream` from src/waste_stream.py: a mass (kilograms) and a
nested composition. -/
structure WasteStream where
  mass : ℚ
  composition : WasteComposition

/-- Pointwise update of one subcategory fraction, as the dict assignment
`comp[cat][sub] = v` performs on a composition whose `cat`/`sub` keys exist. -/
def setFrac (comp : WasteComposition) (cat sub : String) (v : ℚ) : WasteComposition :=
  fun c s => if c = cat ∧ s = sub then some v else comp c s

/-- `WasteStream.adjust_for_segregation` from src/waste_stream.py: deep-copies
the composition and, for each of the three hazardous fractions that is
present, multiplies it by (1 - efficiency); returns a new stream with the
same mass. -/
def WasteStream.adjust_for_segregation (w : WasteStream) (efficiency : ℚ) :
    WasteStream :=
  let c0 := w.composition
  let c1 := match c0 "sharps_waste" "needles_sharps_plastic" with
    | some x => setFrac c0 "sharps_waste" "needles_sharps_plastic"
        (x * (1 - efficiency))
    | none => c0
  let c2 := match c1 "chemical_waste" "cytotoxic_organic" with
    | some x => setFrac c1 "chemical_waste" "cytotoxic_organic"
        (x * (1 - efficiency))
    | none => c1
  let c3 := match c2 "chemical_waste" "lab_reagents" with
    | some x => setFrac c2 "chemical_waste" "lab_reagents"
        (x * (1 - efficiency))
    | none => c2
  { mass := w.mass, composition := c3 }

/-- `DEFAULT_COMPOSITION` from src/config.py. -/
def DEFAULT_COMPOSITION : WasteComposition := fun cat sub =>
  if cat = "general_waste" then
    if sub = "non_hazardous" then some (65/100) else none
  else if cat = "infectious_waste" then
    if sub = "body_fluids" then some (12/100)
    else if sub = "lab_cultures" then some (6/100) else none
  else if cat = "sharps_waste" then
    if sub = "needles_sharps_plastic" then some (2/100)
    else if sub = "needles_sharps_metal" then some (2/100) else none
  else if cat = "pharmaceutical_waste" then
    if sub = "pharmaceuticals" then some (4/100)
    else if sub = "pharmaceuticals_halogenated" then some (1/100) else none
  else if cat = "chemical_waste" then
    if sub = "lab_reagents" then some (3/100)
    else if sub = "lab_cultures_disinfectants" then some (5/1000)
    else if sub = "cytotoxic_organic" then some (15/1000)
    else if sub = "cytotoxic_halogenated" then some (5/1000) else none
  else if cat = "heavy_metals_waste" then
    if sub = "mercury_waste" then some (15/1000)
    else if sub = "other_heavy_metals" then some (15/1000) else none
  else if cat = "radioactive_waste" then
    if sub = "radioactive_metals" then some (5/1000)
    else if sub = "radioactive_organic" then some (2/1000) else none
  else none

/-- The empty composition (an empty dict: every lookup misses). -/
def emptyComposition : WasteComposition := fun _ _ => none

/-- The composition in which every entry of `comp` is made explicit and every
missing entry is filled in as an explicit fraction 0. -/
def totalize (comp : WasteComposition) : WasteComposition :=
  fun c s => some ((comp c s).getD 0)

/-- `EMISSION_FACTORS["INCINERATION"]` from src/config.py, as a record.
`carbon_content_fossil` and `carbon_content_biogenic` are in kg/kWh and
`energy_content` in kWh/kg; the remaining entries are plain numbers.
`combustion_efficiency` is `Option` because the formula reads it through
`f.get("combustion_efficiency", 1.0)`. -/
structure IncinFactors where
  carbon_content_fossil : ℚ
  carbon_content_biogenic : ℚ
  energy_content : ℚ
  nitrogen_frac_organic : ℚ
  sulfur_frac_organic : ℚ
  so2_conversion : ℚ
  pm10_per_organic : ℚ
  pm25_per_organic : ℚ
  nox_per_waste : ℚ
  hg_volatilization : ℚ
  pb_volatilization : ℚ
  combustion_efficiency : Option ℚ
  excess_air_ratio : ℚ

/-- The configured incineration factor values of src/config.py. -/
def INCINERATION_FACTORS : IncinFactors :=
  { carbon_content_fossil := 97/1000
    carbon_content_biogenic := 54/1000
    energy_content := 53/10
    nitrogen_frac_organic := 91/10000000
    sulfur_frac_organic := 2/10000
    so2_conversion := 85/100
    pm10_per_organic := 31/1000000
    pm25_per_organic := 217/10000000
    nox_per_waste := 43/10000000
    hg_volatilization := 465/10000000
    pb_volatilization := 6218/10000000
    combustion_efficiency := some (97/100)
    excess_air_ratio := 14/10 }

/-- `EMISSION_FACTORS["PYROLYSIS"]` from src/config.py, as a record. -/
structure PyroFactors where
  co2_fossil_per_organic : ℚ
  ch4_fossil_per_organic : ℚ
  nmvoc_per_organic : ℚ
  pahs_per_organic : ℚ
  dioxin_per_chlorinated : ℚ
  hg_per_mercury : ℚ
  pb_per_heavy_metal : ℚ

/-- The configured pyrolysis factor values of src/config.py. -/
def PYROLYSIS_FACTORS : PyroFactors :=
  { co2_fossil_per_organic := 6887/100000
    ch4_fossil_per_organic := 4/1000
    nmvoc_per_organic := 645/1000000
    pahs_per_organic := 179/1000000
    dioxin_per_chlorinated := 371/1000000000000000
    hg_per_mercury := 86/100000000
    pb_per_heavy_metal := 45/100000000 }

/-- The seven-term total organic fraction computed identically by
incineration.py and pyrolysis.py. -/
def totalOrganicOf (comp : WasteComposition) : ℚ :=
  fracOf comp "general_waste" "non_hazardous" +
  fracOf comp "infectious_waste" "body_fluids" +
  fracOf comp "infectious_waste" "lab_cultures" +
  fracOf comp "pharmaceutical_waste" "pharmaceuticals" +
  fracOf comp "chemical_waste" "cytotoxic_organic" +
  fracOf comp "radioactive_waste" "radioactive_organic" +
  fracOf comp "sharps_waste" "needles_sharps_plastic"

/-- The two-term total chlorinated fraction of pyrolysis.py. -/
def totalChlorOf (comp : WasteComposition) : ℚ :=
  fracOf comp "pharmaceutical_waste" "pharmaceuticals_halogenated" +
  fracOf comp "chemical_waste" "cytotoxic_halogenated"

/-- Association-list lookup on an emission dict (first entry with the key). -/
def lookupEm (k : String) : List (String × ℚ) → Option ℚ
  | [] => none
  | (k2, v) :: t => if k2 = k then some v else lookupEm k t

/-- The dict assignment `ems[k] *= m` on an emission dict (keys are unique,
so multiplying every entry holding the key is the same update). -/
def scaleAt (k : String) (m : ℚ) : List (String × ℚ) → List (String × ℚ)
  | [] => []
  | (k2, v) :: t =>
      (if k2 = k then (k2, v * m) else (k2, v)) :: scaleAt k m t

/-- A scenario, as incineration.py consumes it: the value of its
`incineration_flue_gas_efficiency` key, `none` when the scenario is absent,
empty, or lacks that key (the source guard is
`if scenario and "incineration_flue_gas_efficiency" in scenario`).
Pyrolysis accepts a scenario and ignores it entirely. -/
abbrev Scenario : Type := Option ℚ

/-- The scenario-adjustment block at the top of
`IncinerationProcess.calculate_direct_emissions`: when the scenario carries
the `incineration_flue_gas_efficiency` key, the pm10, pm25 and nox factors
of the private copy are scaled by (1 - efficiency); otherwise the copy is
untouched. -/
def scenarioAdjusted (f : IncinFactors) (scenario : Scenario) : IncinFactors :=
  match scenario with
  | some efficiency =>
      { f with
        pm10_per_organic := f.pm10_per_organic * (1 - efficiency)
        pm25_per_organic := f.pm25_per_organic * (1 - efficiency)
        nox_per_waste := f.nox_per_waste * (1 - efficiency) }
  | none => f

/-- `IncinerationProcess.calculate_direct_emissions` from
src/processes/incineration.py, modelled operationally: the result triple is
(the shared factor table `self.factors` as it stands after the call, the
input waste stream as it stands after the call, the returned emission dict).
The source takes `f = copy.deepcopy(self.factors)` first, so the scenario
writes `f["pm10_per_organic"] *= (1 - efficiency)` (and pm25, nox) land on
the private copy `f` only; the shared table and the stream are never
assigned to, hence the first two components are the inputs themselves. -/
def IncinerationProcess.calculate_direct_emissions
    (self_factors : IncinFactors) (waste : WasteStream) (scenario : Scenario) :
    IncinFactors × WasteStream × List (String × ℚ) :=
  let f := self_factors
  let f := scenarioAdjusted f scenario
  let total_organic := totalOrganicOf waste.composition
  let fossil_organic := fracOf waste.composition "sharps_waste"
    "needles_sharps_plastic"
  let biogenic_organic := total_organic - fossil_organic
  let mass_q := waste.mass
  let energy := mass_q * f.energy_content
  let emissions : List (String × ℚ) :=
    [ ("co2_fossil", fossil_organic * energy * f.carbon_content_fossil *
        (44 / 12)),
      ("co2_biogenic", biogenic_organic * energy * f.carbon_content_biogenic *
        (44 / 12)),
      ("so2", total_organic * mass_q * f.so2_conversion * (64 / 32)),
      ("nox", mass_q * f.nox_per_waste),
      ("pm10", mass_q * total_organic * f.pm10_per_organic),
      ("pm25", mass_q * total_organic * f.pm25_per_organic),
      ("hg", mass_q * fracOf waste.composition "heavy_metals_waste"
        "mercury_waste" * f.hg_volatilization),
      ("pb", mass_q * fracOf waste.composition "heavy_metals_waste"
        "other_heavy_metals" * f.pb_volatilization) ]
  let emissions :=
    if f.combustion_efficiency.getD 1 < 95/100 then
      let penalty := (95/100 - f.combustion_efficiency.getD 1) * 2
      scaleAt "pm25" (1 + penalty) (scaleAt "pm10" (1 + penalty) emissions)
    else emissions
  (self_factors, waste, emissions)

/-- The emission dict returned by the incineration call. -/
def incinerationEmissions (self_factors : IncinFactors) (waste : WasteStream)
    (scenario : Scenario) : List (String × ℚ) :=
  (IncinerationProcess.calculate_direct_emissions self_factors waste
    scenario).2.2

/-- `PyrolysisProcess.calculate_direct_emissions` from
src/processes/pyrolysis.py, in the same operational shape.  Here
`f = self.factors` is an alias, not a copy, but no factor is ever written,
and the scenario parameter is accepted and unused. -/
def PyrolysisProcess.calculate_direct_emissions
    (self_factors : PyroFactors) (waste : WasteStream) (scenario : Scenario) :
    PyroFactors × WasteStream × List (String × ℚ) :=
  let _ := scenario
  let f := self_factors
  let total_organic := totalOrganicOf waste.composition
  let total_chlor := totalChlorOf waste.composition
  let mass := waste.mass
  let emissions : List (String × ℚ) :=
    [ ("co2_fossil", mass * total_organic * f.co2_fossil_per_organic),
      ("ch4_fossil", mass * total_organic * f.ch4_fossil_per_organic),
      ("nmvoc", mass * total_organic * f.nmvoc_per_organic),
      ("pahs", mass * total_organic * f.pahs_per_organic),
      ("dioxin", mass * total_chlor * f.dioxin_per_chlorinated),
      ("hg", mass * fracOf waste.composition "heavy_metals_waste"
        "mercury_waste" * f.hg_per_mercury),
      ("pb", mass * fracOf waste.composition "heavy_metals_waste"
        "other_heavy_metals" * f.pb_per_heavy_metal) ]
  (self_factors, waste, emissions)

/-- The emission dict returned by the pyrolysis call. -/
def pyrolysisEmissions (self_factors : PyroFactors) (waste : WasteStream)
    (scenario : Scenario) : List (String × ℚ) :=
  (PyrolysisProcess.calculate_direct_emissions self_factors waste scenario).2.2

/-- Modelled from the spec: the Microwave variant's process module is code of
this repository that is not among the provided source files; only its factor
table `EMISSION_FACTORS["MICROWAVE"]` is (src/config.py).  Per the spec
(section 4.3), its NMVOC emission is factor-driven from the waste mass and
organic fraction through `nmvoc_per_organic`, with a frequency-dependent
adjustment relative to the baseline operating condition — rendered here as
the multiplicative correction
(1 + (operating_frequency - base_frequency) * freq_impact_per_mhz) built
from the configured factors 915, 2450 and 1e-15 — and, because
`enforce_emission_limits` is configured true, "each computed pollutant
quantity must be capped at its configured limit before being returned"
(limit 1e-4 for nmvoc). -/
def microwaveNmvocEmission (waste : WasteStream) : ℚ :=
  let nmvoc := waste.mass * totalOrganicOf waste.composition *
    (246/10000000) * (1 + (915 - 2450) * (1/1000000000000000))
  min nmvoc (1/10000)

/-- A composition with a fraction outside the expected [0,1] range: the
plastic-sharps fraction is 1 and the general non-hazardous fraction is -1,
so the seven-term organic sum is 0 while the fossil organic fraction is
not. -/
def mixedSignComposition : WasteComposition := fun c s =>
  if c = "sharps_waste" ∧ s = "needles_sharps_plastic" then some 1
  else if c = "general_waste" ∧ s = "non_hazardous" then some (-1)
  else none

/-- C1: for a stream of mass 100 kg with the default composition,
incineration with the default factor table computes total organic fraction
0.907, fossil organic fraction 0.02 (hence biogenic 0.887), energy
100 * 5.3 = 530 kWh, and returns co2_fossil = 0.02 * 530 * 0.097 * 44/12
(about 3.77 kg), co2_biogenic = 0.887 * 530 * 0.054 * 44/12 (about
93.1 kg), and nox = 100 * 4.3e-6 = 4.3e-4 kg. -/
theorem C1_concrete_end_to_end_case :
    totalOrganicOf DEFAULT_COMPOSITION = 907/1000 ∧
    fracOf DEFAULT_COMPOSITION "sharps_waste" "needles_sharps_plastic"
      = 2/100 ∧
    totalOrganicOf DEFAULT_COMPOSITION
      - fracOf DEFAULT_COMPOSITION "sharps_waste" "needles_sharps_plastic"
      = 887/1000 ∧
    (100 : ℚ) * INCINERATION_FACTORS.energy_content = 530 ∧
    lookupEm "co2_fossil" (incinerationEmissions INCINERATION_FACTORS
        ⟨100, DEFAULT_COMPOSITION⟩ none)
      = some (2/100 * 530 * (97/1000) * (44/12)) ∧
    |(2/100 * 530 * (97/1000) * (44/12) : ℚ) - 377/100| < 1/100 ∧
    lookupEm "co2_biogenic" (incinerationEmissions INCINERATION_FACTORS
        ⟨100, DEFAULT_COMPOSITION⟩ none)
      = some (887/1000 * 530 * (54/1000) * (44/12)) ∧
    |(887/1000 * 530 * (54/1000) * (44/12) : ℚ) - 931/10| < 1/10 ∧
    lookupEm "nox" (incinerationEmissions INCINERATION_FACTORS
        ⟨100, DEFAULT_COMPOSITION⟩ none)
      = some (100 * (43/10000000)) ∧
    (100 * (43/10000000) : ℚ) = 43/100000 := by
  refine ⟨?_, ?_, ?_, ?_, ?_, ?_, ?_, ?_, ?_, ?_⟩
  · simp [totalOrganicOf, fracOf, DEFAULT_COMPOSITION]; norm_num
  · simp [fracOf, DEFAULT_COMPOSITION]
  · simp [totalOrganicOf, fracOf, DEFAULT_COMPOSITION]; norm_num
  · norm_num [INCINERATION_FACTORS]
  · simp [incinerationEmissions, IncinerationProcess.calculate_direct_emissions,
      scenarioAdjusted, INCINERATION_FACTORS, totalOrganicOf, fracOf,
      DEFAULT_COMPOSITION]
    try rw [if_neg (by norm_num)]
    try simp [lookupEm]
    try norm_num
  · rw [abs_lt]; constructor <;> norm_num
  · simp [incinerationEmissions, IncinerationProcess.calculate_direct_emissions,
      scenarioAdjusted, INCINERATION_FACTORS, totalOrganicOf, fracOf,
      DEFAULT_COMPOSITION]
    try rw [if_neg (by norm_num)]
    try simp [lookupEm]
    try norm_num
  · rw [abs_lt]; constructor <;> norm_num
  · simp [incinerationEmissions, IncinerationProcess.calculate_direct_emissions,
      scenarioAdjusted, INCINERATION_FACTORS, totalOrganicOf, fracOf,
      DEFAULT_COMPOSITION]
    try rw [if_neg (by norm_num)]
    try simp [lookupEm]
    try norm_num
  · norm_num

/-- C2: for every waste stream and all efficiencies e1, e2, segregating
with e1 and then with e2 gives, at each of the three hazardous fractions
(sharps_waste needles_sharps_plastic, chemical_waste cytotoxic_organic,
chemical_waste lab_reagents), the same fraction as a single segregation
with efficiency 1 - (1 - e1) * (1 - e2) applied to the original stream. -/
theorem C2_segregation_composition_law (w : WasteStream) (e1 e2 : ℚ) :
    ((w.adjust_for_segregation e1).adjust_for_segregation e2).composition
        "sharps_waste" "needles_sharps_plastic"
      = (w.adjust_for_segregation (1 - (1 - e1) * (1 - e2))).composition
        "sharps_waste" "needles_sharps_plastic" ∧
    ((w.adjust_for_segregation e1).adjust_for_segregation e2).composition
        "chemical_waste" "cytotoxic_organic"
      = (w.adjust_for_segregation (1 - (1 - e1) * (1 - e2))).composition
        "chemical_waste" "cytotoxic_organic" ∧
    ((w.adjust_for_segregation e1).adjust_for_segregation e2).composition
        "chemical_waste" "lab_reagents"
      = (w.adjust_for_segregation (1 - (1 - e1) * (1 - e2))).composition
        "chemical_waste" "lab_reagents" := by
  rcases h1 : w.composition "sharps_waste" "needles_sharps_plastic" with _ | x1 <;>
    rcases h2 : w.composition "chemical_waste" "cytotoxic_organic" with _ | x2 <;>
      rcases h3 : w.composition "chemical_waste" "lab_reagents" with _ | x3 <;>
        simp [WasteStream.adjust_for_segregation, setFrac, h1, h2, h3] <;>
          ring_nf <;> simp

/-- C9: a call to calculate_direct_emissions of incineration or pyrolysis,
with any scenario, leaves the process's shared factor table and the input
waste stream (mass and composition) exactly as they were: the scenario
rescaling lands only on the private deep copy. -/
theorem C9_no_mutation_of_shared_state (f : IncinFactors) (g : PyroFactors)
    (w w2 : WasteStream) (s s2 : Scenario) :
    (IncinerationProcess.calculate_direct_emissions f w s).1 = f ∧
    (IncinerationProcess.calculate_direct_emissions f w s).2.1 = w ∧
    (PyrolysisProcess.calculate_direct_emissions g w2 s2).1 = g ∧
    (PyrolysisProcess.calculate_direct_emissions g w2 s2).2.1 = w2 :=
  ⟨rfl, rfl, rfl, rfl⟩

/-- C10: for every factor set, waste stream and scenario, incineration
returns the keys co2_fossil, co2_biogenic, so2, nox, pm10, pm25, hg, pb
(in dict order) and pyrolysis the keys co2_fossil, ch4_fossil, nmvoc,
pahs, dioxin, hg, pb; every key is present even at magnitude 0 and no
other key appears. -/
theorem C10_emission_key_sets (f : IncinFactors) (g : PyroFactors)
    (w w2 : WasteStream) (s s2 : Scenario) :
    (incinerationEmissions f w s).map Prod.fst
      = ["co2_fossil", "co2_biogenic", "so2", "nox", "pm10", "pm25",
         "hg", "pb"] ∧
    (pyrolysisEmissions g w2 s2).map Prod.fst
      = ["co2_fossil", "ch4_fossil", "nmvoc", "pahs", "dioxin", "hg",
         "pb"] := by
  constructor
  · by_cases hc : (scenarioAdjusted f s).combustion_efficiency.getD 1 < 95/100 <;>
      simp [incinerationEmissions, IncinerationProcess.calculate_direct_emissions,
        hc, scaleAt]
  · simp [pyrolysisEmissions, PyrolysisProcess.calculate_direct_emissions]

/-- C3 counterexample: a waste stream whose seven-term organic sum is 0 but
whose fractions are of mixed sign (plastic sharps 1, general non-hazardous
-1) makes incineration return a nonzero co2_fossil, so the zero-organic
claim as stated (over every WasteStream) fails. -/
theorem C3_counterexample_mixed_sign :
    totalOrganicOf mixedSignComposition = 0 ∧
    ¬ (lookupEm "co2_fossil" (incinerationEmissions INCINERATION_FACTORS
        ⟨1, mixedSignComposition⟩ none) = some 0) := by
  constructor
  · simp [totalOrganicOf, fracOf, mixedSignComposition]
  · simp [incinerationEmissions, IncinerationProcess.calculate_direct_emissions,
      scenarioAdjusted, INCINERATION_FACTORS, totalOrganicOf, fracOf,
      mixedSignComposition]
    try rw [if_neg (by norm_num)]
    try simp [lookupEm]
    try norm_num

/-- C3 amended: for every waste stream whose composition fractions are all
nonnegative (the expected [0,1] range) and whose seven-term total organic
fraction is 0, incineration returns exactly 0 for co2_fossil, co2_biogenic,
pm10 and pm25, and pyrolysis returns exactly 0 for co2_fossil, ch4_fossil,
nmvoc and pahs, for every mass, factor set and scenario. -/
theorem C3_zero_organic_amended (f : IncinFactors) (g : PyroFactors)
    (w : WasteStream) (s s2 : Scenario)
    (hnn : ∀ c t, 0 ≤ fracOf w.composition c t)
    (h0 : totalOrganicOf w.composition = 0) :
    lookupEm "co2_fossil" (incinerationEmissions f w s) = some 0 ∧
    lookupEm "co2_biogenic" (incinerationEmissions f w s) = some 0 ∧
    lookupEm "pm10" (incinerationEmissions f w s) = some 0 ∧
    lookupEm "pm25" (incinerationEmissions f w s) = some 0 ∧
    lookupEm "co2_fossil" (pyrolysisEmissions g w s2) = some 0 ∧
    lookupEm "ch4_fossil" (pyrolysisEmissions g w s2) = some 0 ∧
    lookupEm "nmvoc" (pyrolysisEmissions g w s2) = some 0 ∧
    lookupEm "pahs" (pyrolysisEmissions g w s2) = some 0 := by
  have hfossil :
      fracOf w.composition "sharps_waste" "needles_sharps_plastic" = 0 := by
    have h1 := hnn "general_waste" "non_hazardous"
    have h2 := hnn "infectious_waste" "body_fluids"
    have h3 := hnn "infectious_waste" "lab_cultures"
    have h4 := hnn "pharmaceutical_waste" "pharmaceuticals"
    have h5 := hnn "chemical_waste" "cytotoxic_organic"
    have h6 := hnn "radioactive_waste" "radioactive_organic"
    have h7 := hnn "sharps_waste" "needles_sharps_plastic"
    simp only [totalOrganicOf] at h0
    linarith
  refine ⟨?_, ?_, ?_, ?_, ?_, ?_, ?_, ?_⟩ <;>
    by_cases hc :
        (scenarioAdjusted f s).combustion_efficiency.getD 1 < 95/100 <;>
      simp [incinerationEmissions, pyrolysisEmissions,
        IncinerationProcess.calculate_direct_emissions,
        PyrolysisProcess.calculate_direct_emissions, hc, scaleAt, lookupEm,
        h0, hfossil]

/-- C3 amended, witness: the empty composition has nonnegative fractions and
zero organic sum, and both processes return exactly 0 there for the listed
organic-derived pollutants. -/
theorem C3_zero_organic_amended_witness :
    lookupEm "co2_fossil" (incinerationEmissions INCINERATION_FACTORS
      ⟨5, emptyComposition⟩ none) = some 0 ∧
    lookupEm "co2_biogenic" (incinerationEmissions INCINERATION_FACTORS
      ⟨5, emptyComposition⟩ none) = some 0 ∧
    lookupEm "pm10" (incinerationEmissions INCINERATION_FACTORS
      ⟨5, emptyComposition⟩ none) = some 0 ∧
    lookupEm "pm25" (incinerationEmissions INCINERATION_FACTORS
      ⟨5, emptyComposition⟩ none) = some 0 ∧
    lookupEm "co2_fossil" (pyrolysisEmissions PYROLYSIS_FACTORS
      ⟨5, emptyComposition⟩ none) = some 0 ∧
    lookupEm "ch4_fossil" (pyrolysisEmissions PYROLYSIS_FACTORS
      ⟨5, emptyComposition⟩ none) = some 0 ∧
    lookupEm "nmvoc" (pyrolysisEmissions PYROLYSIS_FACTORS
      ⟨5, emptyComposition⟩ none) = some 0 ∧
    lookupEm "pahs" (pyrolysisEmissions PYROLYSIS_FACTORS
      ⟨5, emptyComposition⟩ none) = some 0 :=
  C3_zero_organic_amended INCINERATION_FACTORS PYROLYSIS_FACTORS
    ⟨5, emptyComposition⟩ none none
    (by intro c t; simp [fracOf, emptyComposition])
    (by simp [totalOrganicOf, fracOf, emptyComposition])

/-- C4 counterexample: the claim quantifies over every variant, and the
spec-modelled Microwave variant caps each computed pollutant quantity at
its configured emission limit, so once the cap binds (here at mass 1e6 kg,
default composition) doubling the mass does not double the returned NMVOC
quantity. -/
theorem C4_counterexample_microwave_cap :
    ¬ (microwaveNmvocEmission ⟨2 * 1000000, DEFAULT_COMPOSITION⟩
        = 2 * microwaveNmvocEmission ⟨1000000, DEFAULT_COMPOSITION⟩) := by
  simp [microwaveNmvocEmission, totalOrganicOf, fracOf, DEFAULT_COMPOSITION]
  norm_num [min_def]

/-- C4 amended: for the two variants whose code is in the repository
sources, incineration and pyrolysis, doubling the waste mass at fixed
composition and scenario exactly doubles every returned emission quantity
(homogeneity of degree 1 in mass); the spec-modelled Microwave variant
violates this once its emission cap binds. -/
theorem C4_linear_scaling_amended (f : IncinFactors) (g : PyroFactors)
    (w : WasteStream) (s s2 : Scenario) :
    incinerationEmissions f ⟨2 * w.mass, w.composition⟩ s
      = (incinerationEmissions f w s).map (fun p => (p.1, 2 * p.2)) ∧
    pyrolysisEmissions g ⟨2 * w.mass, w.composition⟩ s2
      = (pyrolysisEmissions g w s2).map (fun p => (p.1, 2 * p.2)) := by
  constructor
  · by_cases hc :
        (scenarioAdjusted f s).combustion_efficiency.getD 1 < 95/100 <;>
      simp [incinerationEmissions,
        IncinerationProcess.calculate_direct_emissions, hc, scaleAt] <;>
      and_intros <;> ring
  · simp [pyrolysisEmissions, PyrolysisProcess.calculate_direct_emissions]
    and_intros <;> ring

/-- C5: for every factor set and waste stream, a scenario carrying
incineration_flue_gas_efficiency = 1.0 makes incineration return exactly 0
for pm10, pm25 and nox, their governing factors having been scaled by
(1 - 1) = 0 on the private copy before the formulas are evaluated. -/
theorem C5_full_flue_gas_cleaning (f : IncinFactors) (w : WasteStream) :
    lookupEm "pm10" (incinerationEmissions f w (some 1)) = some 0 ∧
    lookupEm "pm25" (incinerationEmissions f w (some 1)) = some 0 ∧
    lookupEm "nox" (incinerationEmissions f w (some 1)) = some 0 := by
  by_cases hc : f.combustion_efficiency.getD 1 < 95/100 <;>
    simp [incinerationEmissions, IncinerationProcess.calculate_direct_emissions,
      scenarioAdjusted, hc, scaleAt, lookupEm]

/-- C6: with combustion_efficiency 0.95 in the factor set, the returned
pm10 and pm25 are the unpenalized base values (mass * total organic * the
scenario-adjusted per-organic factor); with combustion_efficiency 0.90 the
penalty is (0.95 - 0.90) * 2 = 0.1 and each is multiplied by exactly
1.1 = 11/10. -/
theorem C6_combustion_penalty_boundary (f f2 : IncinFactors)
    (w w2 : WasteStream) (s s2 : Scenario)
    (h : f.combustion_efficiency = some (95/100))
    (h2 : f2.combustion_efficiency = some (9/10)) :
    (lookupEm "pm10" (incinerationEmissions f w s)
        = some (w.mass * totalOrganicOf w.composition *
            (scenarioAdjusted f s).pm10_per_organic) ∧
      lookupEm "pm25" (incinerationEmissions f w s)
        = some (w.mass * totalOrganicOf w.composition *
            (scenarioAdjusted f s).pm25_per_organic)) ∧
    (lookupEm "pm10" (incinerationEmissions f2 w2 s2)
        = some (w2.mass * totalOrganicOf w2.composition *
            (scenarioAdjusted f2 s2).pm10_per_organic * (11/10)) ∧
      lookupEm "pm25" (incinerationEmissions f2 w2 s2)
        = some (w2.mass * totalOrganicOf w2.composition *
            (scenarioAdjusted f2 s2).pm25_per_organic * (11/10))) := by
  have hsc : ∀ (g : IncinFactors) (t : Scenario),
      (scenarioAdjusted g t).combustion_efficiency = g.combustion_efficiency := by
    intro g t
    cases t <;> rfl
  constructor
  · have hcond :
        ¬ ((scenarioAdjusted f s).combustion_efficiency.getD 1 < 95/100) := by
      rw [hsc, h]
      norm_num
    simp [incinerationEmissions,
      IncinerationProcess.calculate_direct_emissions, hcond, lookupEm]
  · have hval : (scenarioAdjusted f2 s2).combustion_efficiency.getD 1 = 9/10 := by
      rw [hsc, h2]
      rfl
    simp only [incinerationEmissions,
      IncinerationProcess.calculate_direct_emissions, hval]
    rw [if_pos (by norm_num)]
    simp only [scaleAt, lookupEm, String.reduceEq, reduceIte,
      Option.some.injEq]
    constructor <;> ring

/-- C6, witness: the boundary behavior at the configured factor table with
combustion_efficiency set to 0.95 and to 0.90, on the default composition
at 100 kg and no scenario. -/
theorem C6_combustion_penalty_boundary_witness :
    (lookupEm "pm10" (incinerationEmissions
          { INCINERATION_FACTORS with combustion_efficiency := some (95/100) }
          ⟨100, DEFAULT_COMPOSITION⟩ none)
        = some ((100 : ℚ) * totalOrganicOf DEFAULT_COMPOSITION *
            (scenarioAdjusted
              { INCINERATION_FACTORS with
                combustion_efficiency := some (95/100) } none).pm10_per_organic) ∧
      lookupEm "pm25" (incinerationEmissions
          { INCINERATION_FACTORS with combustion_efficiency := some (95/100) }
          ⟨100, DEFAULT_COMPOSITION⟩ none)
        = some ((100 : ℚ) * totalOrganicOf DEFAULT_COMPOSITION *
            (scenarioAdjusted
              { INCINERATION_FACTORS with
                combustion_efficiency := some (95/100) } none).pm25_per_organic)) ∧
    (lookupEm "pm10" (incinerationEmissions
          { INCINERATION_FACTORS with combustion_efficiency := some (9/10) }
          ⟨100, DEFAULT_COMPOSITION⟩ none)
        = some ((100 : ℚ) * totalOrganicOf DEFAULT_COMPOSITION *
            (scenarioAdjusted
              { INCINERATION_FACTORS with
                combustion_efficiency := some (9/10) } none).pm10_per_organic *
            (11/10)) ∧
      lookupEm "pm25" (incinerationEmissions
          { INCINERATION_FACTORS with combustion_efficiency := some (9/10) }
          ⟨100, DEFAULT_COMPOSITION⟩ none)
        = some ((100 : ℚ) * totalOrganicOf DEFAULT_COMPOSITION *
            (scenarioAdjusted
              { INCINERATION_FACTORS with
                combustion_efficiency := some (9/10) } none).pm25_per_organic *
            (11/10))) :=
  C6_combustion_penalty_boundary
    { INCINERATION_FACTORS with combustion_efficiency := some (95/100) }
    { INCINERATION_FACTORS with combustion_efficiency := some (9/10) }
    ⟨100, DEFAULT_COMPOSITION⟩ ⟨100, DEFAULT_COMPOSITION⟩ none none rfl rfl

/-- C7: with a scenario supplying flue-gas efficiency e and a factor set
whose combustion_efficiency ce is below 0.95, the returned pm10 and pm25
each equal the unadjusted base value (mass * total organic * the raw
per-organic factor) multiplied by both (1 - e) and
(1 + penalty) = (1 + (0.95 - ce) * 2): the two adjustments compose
multiplicatively. -/
theorem C7_rescaling_and_penalty_compose (f : IncinFactors)
    (w : WasteStream) (e ce : ℚ)
    (hce : f.combustion_efficiency = some ce) (hlt : ce < 95/100) :
    lookupEm "pm10" (incinerationEmissions f w (some e))
      = some (w.mass * totalOrganicOf w.composition * f.pm10_per_organic
          * (1 - e) * (1 + (95/100 - ce) * 2)) ∧
    lookupEm "pm25" (incinerationEmissions f w (some e))
      = some (w.mass * totalOrganicOf w.composition * f.pm25_per_organic
          * (1 - e) * (1 + (95/100 - ce) * 2)) := by
  have hval : (scenarioAdjusted f (some e)).combustion_efficiency.getD 1 = ce := by
    simp only [scenarioAdjusted, hce]
    rfl
  simp only [incinerationEmissions,
    IncinerationProcess.calculate_direct_emissions, hval]
  rw [if_pos hlt]
  simp only [scenarioAdjusted, scaleAt, lookupEm, String.reduceEq, reduceIte,
    Option.some.injEq]
  constructor <;> ring

/-- C7, witness: the configured factor table with combustion_efficiency
0.90 and a scenario with flue-gas efficiency 1/2, on the default
composition at 100 kg. -/
theorem C7_rescaling_and_penalty_compose_witness :
    lookupEm "pm10" (incinerationEmissions
        { INCINERATION_FACTORS with combustion_efficiency := some (9/10) }
        ⟨100, DEFAULT_COMPOSITION⟩ (some (1/2)))
      = some ((100 : ℚ) * totalOrganicOf DEFAULT_COMPOSITION *
          ({ INCINERATION_FACTORS with
            combustion_efficiency := some (9/10) } : IncinFactors).pm10_per_organic
          * (1 - 1/2) * (1 + (95/100 - 9/10) * 2)) ∧
    lookupEm "pm25" (incinerationEmissions
        { INCINERATION_FACTORS with combustion_efficiency := some (9/10) }
        ⟨100, DEFAULT_COMPOSITION⟩ (some (1/2)))
      = some ((100 : ℚ) * totalOrganicOf DEFAULT_COMPOSITION *
          ({ INCINERATION_FACTORS with
            combustion_efficiency := some (9/10) } : IncinFactors).pm25_per_organic
          * (1 - 1/2) * (1 + (95/100 - 9/10) * 2)) :=
  C7_rescaling_and_penalty_compose
    { INCINERATION_FACTORS with combustion_efficiency := some (9/10) }
    ⟨100, DEFAULT_COMPOSITION⟩ (1/2) (9/10) rfl (by norm_num)

/-- C8: for every composition, replacing it by its explicit-zero totalized
form (every missing category or subcategory entry made an explicit 0)
leaves the emission dict of both incineration and pyrolysis unchanged:
both total functions treat each missing entry as fraction 0 and never
fail. -/
theorem C8_missing_entries_default_to_zero (f : IncinFactors)
    (g : PyroFactors) (comp : WasteComposition) (m : ℚ) (s s2 : Scenario) :
    incinerationEmissions f ⟨m, comp⟩ s
      = incinerationEmissions f ⟨m, totalize comp⟩ s ∧
    pyrolysisEmissions g ⟨m, comp⟩ s2
      = pyrolysisEmissions g ⟨m, totalize comp⟩ s2 := by
  have key : ∀ c t, fracOf (totalize comp) c t = fracOf comp c t := by
    intro c t
    simp [fracOf, totalize]
  have keyT : totalOrganicOf (totalize comp) = totalOrganicOf comp := by
    simp [totalOrganicOf, key]
  have keyC : totalChlorOf (totalize comp) = totalChlorOf comp := by
    simp [totalChlorOf, key]
  constructor <;>
    simp [incinerationEmissions, pyrolysisEmissions,
      IncinerationProcess.calculate_direct_emissions,
      PyrolysisProcess.calculate_direct_emissions, key, keyT, keyC]
